import Mathlib

/-!
Verification of the TLE satellite-catalog scripts
(`iridium_inclination_stats.py`, `starlink_altitude_histogram.py`).

The scripts are shallowly embedded over exact rationals: Python's `float`
arithmetic is idealised as exact `ℚ`/`ℝ` arithmetic, and `float(str)` is
modelled on its finite decimal-literal fragment (optional sign, digits,
decimal point, exponent, surrounding whitespace).  The special forms
`inf`/`nan`, digit-group underscores and non-ASCII digits accepted by
CPython are outside the model; none of them can occur in TLE catalog data.
A successfully parsed literal is first represented as a pair
`(num, exp) : ℤ × ℤ` denoting the exact decimal `num * 10 ^ exp`, and then
interpreted into `ℚ`.
-/

/-- ASCII whitespace as stripped by Python `str.strip()` / `float()`:
space (32), tab (9), LF (10), VT (11), FF (12), CR (13).  Unicode
whitespace is not modelled. -/
def isSpaceC (c : Char) : Bool :=
  decide (c.toNat = 32 ∨ (9 ≤ c.toNat ∧ c.toNat ≤ 13))

/-- ASCII decimal digit `0`-`9`. -/
def isDigitC (c : Char) : Bool :=
  decide (48 ≤ c.toNat ∧ c.toNat ≤ 57)

/-- Numeric value of an ASCII digit. -/
def digitVal (c : Char) : ℕ := c.toNat - 48

/-- Value of a digit string read in base 10. -/
def digitsVal (l : List Char) : ℕ :=
  l.foldl (fun a c => 10 * a + digitVal c) 0

/-- Python `str.strip()` on a character list (ASCII whitespace). -/
def pyStrip (l : List Char) : List Char :=
  ((l.dropWhile isSpaceC).reverse.dropWhile isSpaceC).reverse

/-- Python slice `s[a:b]` (with `0 ≤ a ≤ b`) on a character list. -/
def pySlice (l : List Char) (a b : ℕ) : List Char :=
  (l.drop a).take (b - a)

/-- Python `str.strip()` on a `String`. -/
def pyStripStr (s : String) : String := String.mk (pyStrip s.data)

/-- Split a character list at the first character satisfying `p`,
returning the parts before and after it, or `none` if no character
satisfies `p`. -/
def splitAtFirst (p : Char → Bool) : List Char → Option (List Char × List Char)
  | [] => none
  | c :: t =>
    if p c then some ([], t)
    else (splitAtFirst p t).map (fun r => (c :: r.1, r.2))

/-- Strip one optional leading sign; returns (isNegative, rest). -/
def stripSign : List Char → Bool × List Char
  | '+' :: t => (false, t)
  | '-' :: t => (true, t)
  | l => (false, l)

/-- Parse a nonempty all-digit string. -/
def parseDigits (l : List Char) : Option ℕ :=
  if l.isEmpty then none
  else if l.all isDigitC then some (digitsVal l) else none

/-- Parse an unsigned mantissa (`digits`, `digits.digits`, `digits.` or
`.digits`, at least one digit overall) into an exact decimal pair. -/
def parseMantissaD (l : List Char) : Option (ℤ × ℤ) :=
  match splitAtFirst (fun c => c == '.') l with
  | none => (parseDigits l).map (fun n => ((n : ℤ), (0 : ℤ)))
  | some r =>
    if (r.1 ++ r.2).isEmpty then none
    else if (r.1 ++ r.2).all isDigitC then
      some ((digitsVal (r.1 ++ r.2) : ℤ), -(r.2.length : ℤ))
    else none

/-- Parse a signed decimal exponent. -/
def parseExp (l : List Char) : Option ℤ :=
  let s := stripSign l
  (parseDigits s.2).map (fun n => if s.1 then -(n : ℤ) else (n : ℤ))

/-- Model of Python `float(str)` on finite decimal literals: strip
whitespace, optional sign, mantissa with optional `e`/`E` exponent.
Returns the exact decimal `(num, exp)`, or `none` exactly where
`float()` raises `ValueError` (within the modelled fragment). -/
def parsePyDec (l : List Char) : Option (ℤ × ℤ) :=
  let s := stripSign (pyStrip l)
  let m : Option (ℤ × ℤ) :=
    match splitAtFirst (fun c => c == 'e' || c == 'E') s.2 with
    | none => parseMantissaD s.2
    | some r =>
      match parseMantissaD r.1, parseExp r.2 with
      | some mv, some ev => some (mv.1, mv.2 + ev)
      | _, _ => none
  m.map (fun v => if s.1 then (-v.1, v.2) else v)

/-- The rational value of an exact decimal pair. -/
def pydecVal (d : ℤ × ℤ) : ℚ := (d.1 : ℚ) * 10 ^ d.2

/-- Model of Python `float(str)` as an exact rational. -/
def parseFloatQ (l : List Char) : Option ℚ := (parsePyDec l).map pydecVal

/-- `extract_inclination_from_tle` (iridium_inclination_stats.py:170):
`float(line2[8:16].strip())`, `None` on failure. -/
def extract_inclination_from_tle (line2 : String) : Option ℚ :=
  parseFloatQ (pyStrip (pySlice line2.data 8 16))

/-- `extract_eccentricity_from_tle` (iridium_inclination_stats.py:188):
`float("0." + line2[26:33].strip())`, `None` on failure. -/
def extract_eccentricity_from_tle (line2 : String) : Option ℚ :=
  parseFloatQ ('0' :: '.' :: pyStrip (pySlice line2.data 26 33))

/-- `extract_mean_motion_from_tle` (iridium_inclination_stats.py:206):
`float(line2[52:63].strip())`, `None` on failure. -/
def extract_mean_motion_from_tle (line2 : String) : Option ℚ :=
  parseFloatQ (pyStrip (pySlice line2.data 52 63))

/-- Python built-in `round(x)` on an exact rational: nearest integer,
ties to even (modelled from the Python language semantics of `round`
with one argument). -/
def pyRound0 (x : ℚ) : ℤ :=
  if Int.fract x < 1 / 2 then ⌊x⌋
  else if 1 / 2 < Int.fract x then ⌊x⌋ + 1
  else if 2 ∣ ⌊x⌋ then ⌊x⌋ else ⌊x⌋ + 1

/-- Python `round(x, 1)` on an exact rational: nearest multiple of 1/10,
ties to even. -/
def pyRound1 (x : ℚ) : ℚ := (pyRound0 (10 * x) : ℚ) / 10

/-- `round_inclination` of iridium_inclination_stats.py:224 (default
`tolerance=0.5`): `rounded = round(inclination)`; if
`abs(inclination - rounded) <= tolerance` return `rounded`, else
`round(inclination, 1)`. -/
def round_inclination_iridium (inclination tolerance : ℚ) : ℚ :=
  let rounded := pyRound0 inclination
  if |inclination - (rounded : ℚ)| ≤ tolerance then (rounded : ℚ)
  else pyRound1 inclination

/-- The `known_inclinations` list of starlink_altitude_histogram.py:232. -/
def knownInclinations : List ℤ := [43, 53, 70, 97]

/-- The first member of the list within `tolerance` of `x` (the `for`
loop of starlink_altitude_histogram.py:235). -/
def snapFirst (x tolerance : ℚ) : List ℤ → Option ℤ
  | [] => none
  | k :: ks => if |x - (k : ℚ)| ≤ tolerance then some k else snapFirst x tolerance ks

/-- `round_inclination` of starlink_altitude_histogram.py:220 (default
`tolerance=1.0`): return the first known inclination within tolerance,
else `round(inclination, 1)`. -/
def round_inclination_starlink (inclination tolerance : ℚ) : ℚ :=
  match snapFirst inclination tolerance knownInclinations with
  | some k => (k : ℚ)
  | none => pyRound1 inclination

/-- A raw 3-line TLE record, as stored by both scripts. -/
structure SatRecord where
  name : String
  line1 : String
  line2 : String
deriving DecidableEq

/-- The parse loop of `download_tle` (both scripts, lines 144-151 /
146-153): group every 3 consecutive lines into a record with trimmed
fields; an incomplete trailing group (`i+2 < len` fails) is dropped. -/
def groupTLE : List String → List SatRecord
  | nm :: l1 :: l2 :: rest =>
    ⟨pyStripStr nm, pyStripStr l1, pyStripStr l2⟩ :: groupTLE rest
  | _ => []

/-- Python `'[DTC]' in name`: the DTC/main classification test used by
both scripts. -/
def hasDTC (name : String) : Bool :=
  decide ("[DTC]".data <:+: name.data)

/-- Gravitational parameter `MU = 398600.4418` km³/s²
(starlink_altitude_histogram.py:199). -/
def MU : ℚ := 398600.4418

/-- The literal pi constant `3.14159265359` used at
starlink_altitude_histogram.py:203. -/
def piCode : ℚ := 3.14159265359

/-- `EARTH_RADIUS = 6378.137` km (starlink_altitude_histogram.py:191). -/
def EARTH_RADIUS : ℚ := 6378.137

/-- `orbital_period_minutes = 1440.0 / mean_motion`
(starlink_altitude_histogram.py:194). -/
def orbital_period_minutes (mean_motion : ℚ) : ℚ := 1440 / mean_motion

/-- `semi_major_axis = ((orbital_period_seconds ** 2 * MU) / (4 * pi ** 2)) ** (1/3)`
with `orbital_period_seconds = orbital_period_minutes * 60`
(starlink_altitude_histogram.py:200-204), idealised over `ℝ`
(the Python float exponent `1/3` is read as the exact real 1/3). -/
noncomputable def semi_major_axis (mean_motion : ℚ) : ℝ :=
  (((orbital_period_minutes mean_motion * 60 : ℚ) : ℝ) ^ (2 : ℕ) * (MU : ℝ) /
      (4 * (piCode : ℝ) ^ (2 : ℕ))) ^ ((1 : ℝ) / 3)

/-- `altitude = semi_major_axis - EARTH_RADIUS`
(starlink_altitude_histogram.py:207). -/
noncomputable def altitude_km (mean_motion : ℚ) : ℝ :=
  semi_major_axis mean_motion - (EARTH_RADIUS : ℝ)

/-- The failure structure of `extract_orbital_elements_from_tle`
(starlink_altitude_histogram.py:172-218): parse mean motion from
`line2[52:63]`, then inclination from `line2[8:16]`; any `ValueError`
(unparsable field) or the `ZeroDivisionError` from
`1440.0 / mean_motion` when the parsed mean motion is zero is caught
and yields `None`.  The returned payload keeps the two parsed fields
`(mean_motion, inclination)`; the remaining dict entries are the
functions `orbital_period_minutes`, `semi_major_axis` and `altitude_km`
of the mean motion and cannot fail in the exact model.  `line1` is
accepted and ignored, as in the source. -/
def extract_orbital_elements_core (_line1 line2 : String) : Option (ℚ × ℚ) :=
  match parseFloatQ (pyStrip (pySlice line2.data 52 63)) with
  | none => none
  | some mean_motion =>
    match parseFloatQ (pyStrip (pySlice line2.data 8 16)) with
    | none => none
    | some inclination =>
      if mean_motion = 0 then none else some (mean_motion, inclination)

/-- The classification loop of `analyze_iridium_inclinations`
(iridium_inclination_stats.py:262-266): every record is put in the DTC
or main subset by name alone, before any field is parsed.  Returns
(main_satellites, dtc_satellites) in traversal order. -/
def iridiumPartition : List SatRecord → List SatRecord × List SatRecord
  | [] => ([], [])
  | s :: t =>
    let r := iridiumPartition t
    if hasDTC s.name then (r.1, s :: r.2) else (s :: r.1, r.2)

/-- The per-satellite inclination aggregate of
iridium_inclination_stats.py:276-279: records whose inclination field
fails to parse are excluded from this list only. -/
def iridiumMainInclinations (sats : List SatRecord) : List ℚ :=
  (iridiumPartition sats).1.filterMap (fun s => extract_inclination_from_tle s.line2)

/-- The classification loop of `create_altitude_histogram`
(starlink_altitude_histogram.py:266-281): a record whose orbital
elements fail to derive is skipped (`continue`) before the DTC/main
classification.  Returns (main_satellites, dtc_satellites). -/
def starlinkPartition : List SatRecord → List SatRecord × List SatRecord
  | [] => ([], [])
  | s :: t =>
    let r := starlinkPartition t
    match extract_orbital_elements_core s.line1 s.line2 with
    | none => r
    | some _ => if hasDTC s.name then (r.1, s :: r.2) else (s :: r.1, r.2)

/-- Python `str.split('\n')` on a character list (returns `[[]]` on the
empty string, as in Python). -/
def pySplitNL : List Char → List (List Char)
  | [] => [[]]
  | c :: t =>
    if c == '\n' then [] :: pySplitNL t
    else
      match pySplitNL t with
      | [] => [[c]]
      | h :: r => (c :: h) :: r

/-- The environment a `download_tle` run interacts with: whether a cache
file exists for the group, whether its mtime-based age is under 24h
(`is_cache_valid`), what loading it yields (`none` models a read
error), and the outcome of the HTTP GET (`none` models an exception
inside the `try` block: network error, or any exception raised before
the records are returned). -/
structure FetchEnv where
  cacheExists : Bool
  cacheFresh : Bool
  cacheLoad : Option (List SatRecord)
  fetch : Option (ℕ × String)

/-- The stale-cache fallback in the `except` block of `download_tle`
(both scripts, lines 158-168 / 160-170): if the cache file exists and
loads to a non-empty record list, return it; otherwise return `[]`.
(The `if cached_satellites:` truthiness test makes an empty cached list
fall through to `return []`.) -/
def fallbackCache (env : FetchEnv) : List SatRecord :=
  if env.cacheExists then
    match env.cacheLoad with
    | some sats => if sats.isEmpty then [] else sats
    | none => []
  else []

/-- The `try` block of `download_tle`: a missing response (exception) or
a non-200 status falls to the stale-cache fallback; otherwise the body
is stripped, split on newlines, grouped into records and returned.
(The cache write `save_satellites_to_cache` swallows its own errors and
does not affect the returned value.) -/
def tryDownload (env : FetchEnv) : List SatRecord :=
  match env.fetch with
  | some r =>
    if r.1 ≠ 200 then fallbackCache env
    else groupTLE ((pySplitNL (pyStrip r.2.data)).map String.mk)
  | none => fallbackCache env

/-- `download_tle` (iridium_inclination_stats.py:110-168,
starlink_altitude_histogram.py:112-170): serve a fresh cache whose load
succeeds with a non-empty list directly; otherwise attempt the
download with stale-cache fallback. -/
def download_tle (env : FetchEnv) : List SatRecord :=
  if env.cacheExists && env.cacheFresh then
    match env.cacheLoad with
    | some sats => if sats.isEmpty then tryDownload env else sats
    | none => tryDownload env
  else tryDownload env

/-- The fetch attempt of `download_tle` fails: either an exception in
the `try` block (network error, parse error) or a non-200 status. -/
def fetchFailed (env : FetchEnv) : Prop :=
  match env.fetch with
  | none => True
  | some r => r.1 ≠ 200

/-- A record whose line2 is too short for any field to parse; its name
has no `[DTC]` marker. -/
def starlinkBadRecord : SatRecord :=
  ⟨"STARLINK-9999", "1 44713U 19074A   25285.50000000", "2 44713"⟩

/-- The ISS line 2, a standard well-formed TLE second line. -/
def issLine2 : String :=
  "2 25544  51.6416 247.4627 0006703 130.5360 325.0288 15.72125391563537"

/-- A pre-existing cached record used to exercise the fetch-failure
fallback. -/
def cachedRecord : SatRecord :=
  ⟨"IRIDIUM 167", "1 43931U 19002A   25285.50000000", "2 43931  86.3981"⟩

/-- An environment with a stale cache and a failing (HTTP 404) fetch. -/
def failEnv : FetchEnv := ⟨true, false, some [cachedRecord], some (404, "")⟩

/-- An environment with no cache and a failing (HTTP 500) fetch. -/
def noCacheEnv : FetchEnv := ⟨false, false, none, some (500, "")⟩

example : parsePyDec (pyStrip (pySlice "2 25544  51.6416 247.4627 0006703 130.5360 325.0288 15.72125391563537".data 8 16)) = some (516416, -4) := by decide
example : parsePyDec ('0' :: '.' :: pyStrip (pySlice "2 25544  51.6416 247.4627 0006703 130.5360 325.0288 15.72125391563537".data 26 33)) = some (6703, -7) := by decide
example : parsePyDec (pyStrip (pySlice "2 25544  51.6416 247.4627 0006703 130.5360 325.0288 15.72125391563537".data 52 63)) = some (1572125391, -8) := by decide
example : extract_mean_motion_from_tle "short" = none := by decide
example : parsePyDec " -1.5e-2 ".data = some (-15, -3) := by decide
example : parsePyDec "1e".data = none := by decide
example : parsePyDec ".".data = none := by decide
example : parsePyDec "0.".data = some (0, 0) := by decide
example : parsePyDec "1 2".data = none := by decide
example : parsePyDec "+.5E3".data = some (5, 2) := by decide

lemma abs_sub_pyRound0_le (x : ℚ) : |x - (pyRound0 x : ℚ)| ≤ 1 / 2 := by
  have hfr : Int.fract x = x - (⌊x⌋ : ℚ) := rfl
  have h0 : (0 : ℚ) ≤ x - (⌊x⌋ : ℚ) := by rw [← hfr]; exact Int.fract_nonneg x
  have h1 : x - (⌊x⌋ : ℚ) < 1 := by rw [← hfr]; exact Int.fract_lt_one x
  unfold pyRound0
  rw [hfr, abs_le]
  split
  next h => constructor <;> linarith
  next h =>
    rw [not_lt] at h
    split
    next h2 => push_cast; constructor <;> linarith
    next h2 =>
      rw [not_lt] at h2
      split
      next => constructor <;> linarith
      next => push_cast; constructor <;> linarith

/-- C10: with the default tolerance 0.5, the iridium rounding policy
always returns `round(x)` (Python round, ties to even): every rational
is within 1/2 of its nearest integer, so the one-decimal fallback
branch is unreachable. -/
theorem iridium_round_default_always_integer (x : ℚ) :
    |x - (pyRound0 x : ℚ)| ≤ 1 / 2 ∧
      round_inclination_iridium x (1 / 2) = (pyRound0 x : ℚ) := by
  refine ⟨abs_sub_pyRound0_le x, ?_⟩
  unfold round_inclination_iridium
  rw [if_pos (abs_sub_pyRound0_le x)]

/-- C7: orbital-element derivation returns `None` exactly when the mean
motion or inclination field of line2 fails to parse as a float, or the
parsed mean motion is zero (the division `1440.0 / mean_motion` would
raise `ZeroDivisionError`); being a total function, it never raises. -/
theorem orbital_elements_none_iff (line1 line2 : String) :
    extract_orbital_elements_core line1 line2 = none ↔
      (extract_mean_motion_from_tle line2 = none
        ∨ extract_inclination_from_tle line2 = none
        ∨ extract_mean_motion_from_tle line2 = some 0) := by
  cases hm : parseFloatQ (pyStrip (pySlice line2.data 52 63)) with
  | none =>
    simp [extract_orbital_elements_core, extract_mean_motion_from_tle, hm]
  | some mm =>
    cases hi : parseFloatQ (pyStrip (pySlice line2.data 8 16)) with
    | none =>
      simp [extract_orbital_elements_core, extract_mean_motion_from_tle,
        extract_inclination_from_tle, hm, hi]
    | some inc =>
      by_cases h0 : mm = 0
      · subst h0
        simp [extract_orbital_elements_core, extract_mean_motion_from_tle,
          extract_inclination_from_tle, hm, hi]
      · simp [extract_orbital_elements_core, extract_mean_motion_from_tle,
          extract_inclination_from_tle, hm, hi, h0]

lemma fallbackCache_eq (env : FetchEnv) (sats : List SatRecord)
    (he : env.cacheExists = true) (hl : env.cacheLoad = some sats) :
    fallbackCache env = sats := by
  unfold fallbackCache
  rw [he, hl]
  simp only [if_true]
  cases hs : sats.isEmpty
  · simp
  · simp [List.isEmpty_iff.mp hs]

lemma tryDownload_eq_fallback (env : FetchEnv) (hfail : fetchFailed env) :
    tryDownload env = fallbackCache env := by
  unfold tryDownload
  unfold fetchFailed at hfail
  cases hf : env.fetch with
  | none => rfl
  | some r =>
    rw [hf] at hfail
    simp [hfail]

/-- C8: when the fetch fails (exception or non-200), `download_tle`
returns the records of the pre-existing cache entry unchanged,
regardless of the cache's age; with no cache entry it returns `[]`. -/
theorem download_tle_fallback (env : FetchEnv) (hfail : fetchFailed env) :
    (∀ sats, env.cacheExists = true → env.cacheLoad = some sats →
      download_tle env = sats)
    ∧ (env.cacheExists = false → download_tle env = []) := by
  constructor
  · intro sats he hl
    unfold download_tle
    rw [he, hl]
    cases hfr : env.cacheFresh
    · simp only [Bool.and_false, Bool.false_eq_true, if_false]
      rw [tryDownload_eq_fallback env hfail, fallbackCache_eq env sats he hl]
    · simp only [Bool.and_true, if_true]
      cases hs : sats.isEmpty
      · simp
      · simp only [if_true]
        rw [tryDownload_eq_fallback env hfail, fallbackCache_eq env sats he hl]
  · intro he
    unfold download_tle
    rw [he]
    simp only [Bool.false_and, Bool.false_eq_true, if_false]
    rw [tryDownload_eq_fallback env hfail]
    unfold fallbackCache
    rw [he]
    simp

/-- C4: grouping recovers exactly `floor(lineCount/3)` records; record
`k` is the trimmed lines `3k`, `3k+1`, `3k+2`; an incomplete trailing
group is silently dropped. -/
theorem groupTLE_spec (lines : List String) :
    groupTLE lines = (List.range (lines.length / 3)).map (fun k =>
      ⟨pyStripStr (lines.getD (3 * k) ""), pyStripStr (lines.getD (3 * k + 1) ""),
        pyStripStr (lines.getD (3 * k + 2) "")⟩) := by
  induction lines using groupTLE.induct with
  | case1 nm l1 l2 rest ih =>
    have h3 : (nm :: l1 :: l2 :: rest).length / 3 = rest.length / 3 + 1 := by
      simp only [List.length_cons]
      omega
    rw [groupTLE, h3, List.range_succ_eq_map, List.map_cons, List.map_map, ih]
    congr 1
  | case2 l h =>
    rcases l with _ | ⟨a, _ | ⟨b, _ | ⟨c, t⟩⟩⟩
    · simp [groupTLE]
    · simp [groupTLE]
    · simp [groupTLE]
    · exact absurd rfl (h a b c t)

lemma dropWhile_rstrip (A : List Char) (hA : List.dropWhile isSpaceC A = A) :
    List.dropWhile isSpaceC (List.rdropWhile isSpaceC A) = List.rdropWhile isSpaceC A := by
  rcases hR : List.rdropWhile isSpaceC A with _ | ⟨c, t⟩
  · rfl
  · obtain ⟨s, hs⟩ := List.rdropWhile_prefix isSpaceC A
    rw [hR] at hs
    have hpc : ¬ isSpaceC c = true := by
      intro hp
      rw [← hs, List.cons_append, List.dropWhile_cons_of_pos hp] at hA
      have hlen := congrArg List.length hA
      have hle : (List.dropWhile isSpaceC (t ++ s)).length ≤ (t ++ s).length :=
        (List.dropWhile_suffix isSpaceC).length_le
      simp only [List.length_cons] at hlen
      omega
    rw [List.dropWhile_cons_of_neg hpc]

lemma pyStrip_idempotent (l : List Char) : pyStrip (pyStrip l) = pyStrip l := by
  show List.rdropWhile isSpaceC
      (List.dropWhile isSpaceC (List.rdropWhile isSpaceC (List.dropWhile isSpaceC l))) =
    List.rdropWhile isSpaceC (List.dropWhile isSpaceC l)
  rw [dropWhile_rstrip _ (List.dropWhile_idempotent isSpaceC l), List.rdropWhile_idempotent]

lemma parsePyDec_pyStrip (x : List Char) : parsePyDec (pyStrip x) = parsePyDec x := by
  unfold parsePyDec
  rw [pyStrip_idempotent]

lemma parseFloatQ_pyStrip (x : List Char) : parseFloatQ (pyStrip x) = parseFloatQ x := by
  unfold parseFloatQ
  rw [parsePyDec_pyStrip]

lemma isSpaceC_eq_false_of_digit {c : Char} (h : isDigitC c = true) : isSpaceC c = false := by
  unfold isDigitC at h
  unfold isSpaceC
  rw [decide_eq_true_iff] at h
  rw [decide_eq_false_iff_not]
  omega

lemma beq_dot_eq_false_of_digit {c : Char} (h : isDigitC c = true) : (c == '.') = false := by
  cases hb : c == '.'
  · rfl
  · exact absurd h (by rw [eq_of_beq hb]; decide)

lemma beq_exp_eq_false_of_digit {c : Char} (h : isDigitC c = true) :
    (c == 'e' || c == 'E') = false := by
  cases he : c == 'e'
  · cases hE : c == 'E'
    · rfl
    · exact absurd h (by rw [eq_of_beq hE]; decide)
  · exact absurd h (by rw [eq_of_beq he]; decide)

lemma dropWhile_eq_self_of_none {p : Char → Bool} {l : List Char}
    (h : ∀ c ∈ l, p c = false) : l.dropWhile p = l := by
  cases l with
  | nil => rfl
  | cons a t =>
    have := h a (List.mem_cons_self a t)
    rw [List.dropWhile_cons_of_neg (by simp [this])]

lemma pyStrip_eq_self_of_no_space {l : List Char}
    (h : ∀ c ∈ l, isSpaceC c = false) : pyStrip l = l := by
  unfold pyStrip
  rw [dropWhile_eq_self_of_none h, dropWhile_eq_self_of_none, List.reverse_reverse]
  intro c hc
  exact h c (List.mem_reverse.mp hc)

lemma splitAtFirst_eq_none {p : Char → Bool} {l : List Char}
    (h : ∀ c ∈ l, p c = false) : splitAtFirst p l = none := by
  induction l with
  | nil => rfl
  | cons a t ih =>
    rw [splitAtFirst, if_neg (by simp [h a (List.mem_cons_self a t)]),
      ih (fun c hc => h c (List.mem_cons_of_mem a hc))]
    rfl

lemma digitsVal_cons_zero (d : List Char) : digitsVal ('0' :: d) = digitsVal d := rfl

lemma pyStrip_zero_dot_digits {d : List Char} (h : ∀ c ∈ d, isDigitC c = true) :
    pyStrip ('0' :: '.' :: d) = '0' :: '.' :: d := by
  apply pyStrip_eq_self_of_no_space
  intro c hc
  rcases List.mem_cons.mp hc with rfl | hc
  · decide
  rcases List.mem_cons.mp hc with rfl | hc
  · decide
  · exact isSpaceC_eq_false_of_digit (h c hc)

lemma parsePyDec_zero_dot_digits {d : List Char} (hall : d.all isDigitC = true) :
    parsePyDec ('0' :: '.' :: d) = some ((digitsVal d : ℤ), -(d.length : ℤ)) := by
  have h : ∀ c ∈ d, isDigitC c = true := List.all_eq_true.mp hall
  have hsplit : splitAtFirst (fun c => c == '.') ('0' :: '.' :: d) = some (['0'], d) := by
    rw [splitAtFirst, if_neg (by decide), splitAtFirst, if_pos (by decide)]
    rfl
  have hexp : splitAtFirst (fun c => c == 'e' || c == 'E') ('0' :: '.' :: d) = none := by
    apply splitAtFirst_eq_none
    intro c hc
    rcases List.mem_cons.mp hc with rfl | hc
    · decide
    rcases List.mem_cons.mp hc with rfl | hc
    · decide
    · exact beq_exp_eq_false_of_digit (h c hc)
  have hman : parseMantissaD ('0' :: '.' :: d) = some ((digitsVal d : ℤ), -(d.length : ℤ)) := by
    unfold parseMantissaD
    rw [hsplit]
    show (if (['0'] ++ d).isEmpty then none
      else if (['0'] ++ d).all isDigitC then
        some ((digitsVal (['0'] ++ d) : ℤ), -(d.length : ℤ))
      else none) = some ((digitsVal d : ℤ), -(d.length : ℤ))
    have h0 : isDigitC '0' = true := by decide
    rw [List.singleton_append, if_neg (by simp), if_pos (by rw [List.all_cons, hall, h0]; rfl),
      digitsVal_cons_zero]
  have hsign : stripSign ('0' :: '.' :: d) = (false, '0' :: '.' :: d) := rfl
  simp only [parsePyDec]
  rw [pyStrip_zero_dot_digits h, hsign]
  simp only [hexp, hman, Option.map_some]
  rfl

lemma parseFloatQ_zero_dot_digits {d : List Char} (hall : d.all isDigitC = true) :
    parseFloatQ ('0' :: '.' :: d) = some ((digitsVal d : ℚ) / 10 ^ d.length) := by
  unfold parseFloatQ
  rw [parsePyDec_zero_dot_digits hall]
  show some (pydecVal ((digitsVal d : ℤ), -(d.length : ℤ)))
    = some ((digitsVal d : ℚ) / 10 ^ d.length)
  congr 1
  unfold pydecVal
  rw [zpow_neg, zpow_natCast, div_eq_mul_inv]
  push_cast
  rfl

/-- C5: when the `[26:33)` field of line2 is a digit string `d`, the
eccentricity extractor parses `"0." + d` and returns exactly
`digitsVal d / 10 ^ |d|`, the leading-zero-reinserted decimal value. -/
theorem eccentricity_digit_field (line2 : String)
    (h : (pySlice line2.data 26 33).all isDigitC = true) :
    extract_eccentricity_from_tle line2 =
      some ((digitsVal (pySlice line2.data 26 33) : ℚ) /
        10 ^ (pySlice line2.data 26 33).length) := by
  unfold extract_eccentricity_from_tle
  rw [pyStrip_eq_self_of_no_space
    (fun c hc => isSpaceC_eq_false_of_digit (List.all_eq_true.mp h c hc))]
  exact parseFloatQ_zero_dot_digits h

theorem eccentricity_digit_field_witness :
    ("2 25544  51.6416 247.4627 0001234 130.5360 325.0288 15.72125391563537".data.take 33
        |>.drop 26).all isDigitC = true
    ∧ extract_eccentricity_from_tle
        "2 25544  51.6416 247.4627 0001234 130.5360 325.0288 15.72125391563537" =
      some (1234 / 10 ^ 7) := by
  constructor
  · decide
  · have h := eccentricity_digit_field
      "2 25544  51.6416 247.4627 0001234 130.5360 325.0288 15.72125391563537" (by decide)
    have e1 : digitsVal (pySlice
        "2 25544  51.6416 247.4627 0001234 130.5360 325.0288 15.72125391563537".data 26 33)
        = 1234 := by decide
    have e2 : (pySlice
        "2 25544  51.6416 247.4627 0001234 130.5360 325.0288 15.72125391563537".data 26 33).length
        = 7 := by decide
    rw [e1, e2] at h
    exact h

lemma ecc_blank_base (s : String) (hs : (pySlice s.data 26 33).all isSpaceC = true) :
    extract_eccentricity_from_tle s = some 0 := by
  unfold extract_eccentricity_from_tle
  have hnil : pyStrip (pySlice s.data 26 33) = [] := by
    unfold pyStrip
    rw [List.dropWhile_eq_nil_iff.mpr (fun x hx => List.all_eq_true.mp hs x hx)]
    rfl
  rw [hnil]
  have h0 : parseFloatQ ['0', '.'] = some ((digitsVal [] : ℚ) / 10 ^ ([] : List Char).length) :=
    parseFloatQ_zero_dot_digits rfl
  rw [h0]
  norm_num [digitsVal]

lemma pySlice_eq_nil_of_le {l : List Char} {a : ℕ} (b : ℕ) (h : l.length ≤ a) :
    pySlice l a b = [] := by
  unfold pySlice
  rw [List.drop_eq_nil_of_le h]
  exact List.take_nil

/-- C9: when the `[26:33)` eccentricity field of line2 is empty or
all-whitespace (in particular whenever line2 is shorter than 27
characters, so that the slice is empty), the extractor parses the
string `"0."`, a valid float, and returns `0.0` instead of an absent
result. -/
theorem eccentricity_blank_field_yields_zero (line2 : String) :
    ((pySlice line2.data 26 33).all isSpaceC = true →
      extract_eccentricity_from_tle line2 = some 0)
    ∧ (line2.data.length ≤ 26 → extract_eccentricity_from_tle line2 = some 0) := by
  refine ⟨ecc_blank_base line2, fun hshort => ecc_blank_base line2 ?_⟩
  rw [pySlice_eq_nil_of_le 33 hshort]
  rfl

theorem eccentricity_blank_field_witness :
    extract_eccentricity_from_tle (String.mk (List.replicate 40 ' ')) = some 0
    ∧ extract_eccentricity_from_tle "2 25544" = some 0 :=
  ⟨(eccentricity_blank_field_yields_zero (String.mk (List.replicate 40 ' '))).1 (by decide),
    (eccentricity_blank_field_yields_zero "2 25544").2 (by decide)⟩

/-- C2 counterexample: on the empty line2, the designated eccentricity
substring (`""[26:33]`, the empty string) is not a valid float, yet the
eccentricity extractor returns `0.0` (it parses `"0." + ""`), not an
absent result. -/
theorem eccentricity_not_absent_counterexample :
    parseFloatQ (pySlice ("" : String).data 26 33) = none
    ∧ extract_eccentricity_from_tle "" = some 0 :=
  ⟨rfl, ecc_blank_base "" (by decide)⟩

/-- C2 amended: the inclination and mean-motion extractors return an
absent result exactly when their designated substring is not a valid
float (in particular on any line2 shorter than the column range), and
never raise (they are total); the eccentricity extractor instead parses
`"0."` prefixed to the stripped substring, so it returns an absent
result exactly when that combined string is not a valid float — on a
line2 shorter than its column range it returns `0.0`, not absent. -/
theorem extractor_failure_modes (line2 : String) :
    (extract_inclination_from_tle line2 = none ↔
      parseFloatQ (pySlice line2.data 8 16) = none)
    ∧ (extract_mean_motion_from_tle line2 = none ↔
      parseFloatQ (pySlice line2.data 52 63) = none)
    ∧ (extract_eccentricity_from_tle line2 = none ↔
      parseFloatQ ('0' :: '.' :: pyStrip (pySlice line2.data 26 33)) = none)
    ∧ (line2.data.length ≤ 8 → extract_inclination_from_tle line2 = none)
    ∧ (line2.data.length ≤ 52 → extract_mean_motion_from_tle line2 = none)
    ∧ (line2.data.length ≤ 26 → extract_eccentricity_from_tle line2 = some 0) := by
  refine ⟨?_, ?_, Iff.rfl, ?_, ?_, ?_⟩
  · unfold extract_inclination_from_tle
    rw [parseFloatQ_pyStrip]
  · unfold extract_mean_motion_from_tle
    rw [parseFloatQ_pyStrip]
  · intro h
    unfold extract_inclination_from_tle
    rw [pySlice_eq_nil_of_le 16 h]
    rfl
  · intro h
    unfold extract_mean_motion_from_tle
    rw [pySlice_eq_nil_of_le 63 h]
    rfl
  · intro h
    apply ecc_blank_base
    rw [pySlice_eq_nil_of_le 33 h]
    rfl

theorem extractor_failure_modes_witness :
    extract_inclination_from_tle "2 44713" = none
    ∧ extract_mean_motion_from_tle "2 44713" = none
    ∧ extract_eccentricity_from_tle "2 44713" = some 0 :=
  ⟨(extractor_failure_modes "2 44713").2.2.2.1 (by decide),
    (extractor_failure_modes "2 44713").2.2.2.2.1 (by decide),
    (extractor_failure_modes "2 44713").2.2.2.2.2 (by decide)⟩

/-- C1 counterexample: in the starlink report, a record whose orbital
elements fail to derive is skipped before classification, so it is
missing from both the main and the DTC subset (counts 0/0 for a
1-record run), while the iridium report still counts it in the main
subset. -/
theorem starlink_skip_counterexample :
    hasDTC starlinkBadRecord.name = false
    ∧ extract_orbital_elements_core starlinkBadRecord.line1 starlinkBadRecord.line2 = none
    ∧ starlinkPartition [starlinkBadRecord] = ([], [])
    ∧ iridiumPartition [starlinkBadRecord] = ([starlinkBadRecord], []) := by
  refine ⟨by decide, rfl, ?_, ?_⟩
  · rfl
  · rfl

/-- C1 amended: in the iridium report the DTC/main classification
precedes all field parsing, so every record counts toward the subset
counts (they sum to the record total) and a parse failure excludes it
only from the per-field aggregates; in the starlink report the subset
counts instead sum to the number of records whose orbital elements
derive successfully — a record with an unparsable required field is
dropped from the subsets as well, counting only toward the run's
overall record total. -/
theorem partition_counts (sats : List SatRecord) :
    (iridiumPartition sats).1.length + (iridiumPartition sats).2.length = sats.length
    ∧ (starlinkPartition sats).1.length + (starlinkPartition sats).2.length
      = (sats.filter
          (fun s => (extract_orbital_elements_core s.line1 s.line2).isSome)).length := by
  induction sats with
  | nil => exact ⟨rfl, rfl⟩
  | cons s t ih =>
    obtain ⟨ih1, ih2⟩ := ih
    constructor
    · cases hd : hasDTC s.name <;>
        simp [iridiumPartition, hd, List.length_cons] <;> omega
    · cases hc : extract_orbital_elements_core s.line1 s.line2 with
      | none => simpa [starlinkPartition, hc, List.filter_cons] using ih2
      | some p =>
        cases hd : hasDTC s.name <;>
          simp [starlinkPartition, hc, hd, List.filter_cons, List.length_cons] <;> omega

lemma lt_abs_left {x k tol : ℚ} (h : tol < x - k) : tol < |x - k| :=
  lt_of_lt_of_le h (le_abs_self _)

lemma lt_abs_right {x k tol : ℚ} (h : tol < k - x) : tol < |x - k| := by
  rw [abs_sub_comm]
  exact lt_of_lt_of_le h (le_abs_self _)

/-- C3 counterexample: the snap loop returns the first member within
tolerance, not the nearest: at input 49 with tolerance 6 it returns 43
although 53 is strictly nearer and also within tolerance. -/
theorem snap_not_nearest_counterexample :
    round_inclination_starlink 49 6 = 43
    ∧ |(49 : ℚ) - 53| ≤ 6
    ∧ |(49 : ℚ) - 53| < |(49 : ℚ) - 43| := by
  refine ⟨?_, ?_, ?_⟩
  · have h1 : snapFirst 49 6 knownInclinations = some 43 := by
      unfold knownInclinations
      rw [snapFirst, if_pos]
      push_cast
      rw [abs_of_nonneg (by norm_num)]
      norm_num
    unfold round_inclination_starlink
    rw [h1]
    norm_num
  · rw [abs_of_nonpos (by norm_num)]
    norm_num
  · rw [abs_of_nonpos (by norm_num), abs_of_nonneg (by norm_num)]
    norm_num

/-- C3 amended: for tolerances below 5 (half the minimal gap of the
known set; in particular the default 1.0), the snap policy returns the
member of {43, 53, 70, 97} within tolerance of the input — necessarily
unique and strictly nearest — and returns the input rounded to one
decimal place when no member is within tolerance.  For larger
tolerances the code returns the first member in list order within
tolerance, which need not be the nearest. -/
theorem round_inclination_starlink_spec (x tol : ℚ) (htol : tol < 5) :
    ((∀ k ∈ knownInclinations, tol < |x - (k : ℚ)|) →
      round_inclination_starlink x tol = pyRound1 x)
    ∧ (∀ k ∈ knownInclinations, |x - (k : ℚ)| ≤ tol →
      round_inclination_starlink x tol = (k : ℚ)
      ∧ ∀ j ∈ knownInclinations, j ≠ k → |x - (k : ℚ)| < |x - (j : ℚ)|) := by
  constructor
  · intro hfar
    have e : snapFirst x tol knownInclinations = none := by
      unfold knownInclinations
      rw [snapFirst, if_neg (not_le.mpr (hfar 43 (by decide))),
        snapFirst, if_neg (not_le.mpr (hfar 53 (by decide))),
        snapFirst, if_neg (not_le.mpr (hfar 70 (by decide))),
        snapFirst, if_neg (not_le.mpr (hfar 97 (by decide)))]
      rfl
    unfold round_inclination_starlink
    rw [e]
  · intro k hk hnear
    have h0tol : (0 : ℚ) ≤ tol := le_trans (abs_nonneg _) hnear
    simp only [knownInclinations, List.mem_cons, List.not_mem_nil, or_false] at hk
    rcases hk with rfl | rfl | rfl | rfl
    · push_cast at hnear
      obtain ⟨hb1, hb2⟩ := abs_le.mp hnear
      constructor
      · have hsnap : snapFirst x tol knownInclinations = some 43 := by
          unfold knownInclinations
          rw [snapFirst, if_pos (by push_cast; exact hnear)]
        unfold round_inclination_starlink
        rw [hsnap]
      · intro j hj hjk
        simp only [knownInclinations, List.mem_cons, List.not_mem_nil, or_false] at hj
        rcases hj with rfl | rfl | rfl | rfl
        · exact absurd rfl hjk
        · push_cast
          exact lt_of_le_of_lt hnear (lt_abs_right (by linarith))
        · push_cast
          exact lt_of_le_of_lt hnear (lt_abs_right (by linarith))
        · push_cast
          exact lt_of_le_of_lt hnear (lt_abs_right (by linarith))
    · push_cast at hnear
      obtain ⟨hb1, hb2⟩ := abs_le.mp hnear
      constructor
      · have hsnap : snapFirst x tol knownInclinations = some 53 := by
          unfold knownInclinations
          rw [snapFirst, if_neg (not_le.mpr (by push_cast; exact lt_abs_left (by linarith))),
            snapFirst, if_pos (by push_cast; exact hnear)]
        unfold round_inclination_starlink
        rw [hsnap]
      · intro j hj hjk
        simp only [knownInclinations, List.mem_cons, List.not_mem_nil, or_false] at hj
        rcases hj with rfl | rfl | rfl | rfl
        · push_cast
          exact lt_of_le_of_lt hnear (lt_abs_left (by linarith))
        · exact absurd rfl hjk
        · push_cast
          exact lt_of_le_of_lt hnear (lt_abs_right (by linarith))
        · push_cast
          exact lt_of_le_of_lt hnear (lt_abs_right (by linarith))
    · push_cast at hnear
      obtain ⟨hb1, hb2⟩ := abs_le.mp hnear
      constructor
      · have hsnap : snapFirst x tol knownInclinations = some 70 := by
          unfold knownInclinations
          rw [snapFirst, if_neg (not_le.mpr (by push_cast; exact lt_abs_left (by linarith))),
            snapFirst, if_neg (not_le.mpr (by push_cast; exact lt_abs_left (by linarith))),
            snapFirst, if_pos (by push_cast; exact hnear)]
        unfold round_inclination_starlink
        rw [hsnap]
      · intro j hj hjk
        simp only [knownInclinations, List.mem_cons, List.not_mem_nil, or_false] at hj
        rcases hj with rfl | rfl | rfl | rfl
        · push_cast
          exact lt_of_le_of_lt hnear (lt_abs_left (by linarith))
        · push_cast
          exact lt_of_le_of_lt hnear (lt_abs_left (by linarith))
        · exact absurd rfl hjk
        · push_cast
          exact lt_of_le_of_lt hnear (lt_abs_right (by linarith))
    · push_cast at hnear
      obtain ⟨hb1, hb2⟩ := abs_le.mp hnear
      constructor
      · have hsnap : snapFirst x tol knownInclinations = some 97 := by
          unfold knownInclinations
          rw [snapFirst, if_neg (not_le.mpr (by push_cast; exact lt_abs_left (by linarith))),
            snapFirst, if_neg (not_le.mpr (by push_cast; exact lt_abs_left (by linarith))),
            snapFirst, if_neg (not_le.mpr (by push_cast; exact lt_abs_left (by linarith))),
            snapFirst, if_pos (by push_cast; exact hnear)]
        unfold round_inclination_starlink
        rw [hsnap]
      · intro j hj hjk
        simp only [knownInclinations, List.mem_cons, List.not_mem_nil, or_false] at hj
        rcases hj with rfl | rfl | rfl | rfl
        · push_cast
          exact lt_of_le_of_lt hnear (lt_abs_left (by linarith))
        · push_cast
          exact lt_of_le_of_lt hnear (lt_abs_left (by linarith))
        · push_cast
          exact lt_of_le_of_lt hnear (lt_abs_left (by linarith))
        · exact absurd rfl hjk

lemma one_lt_five : (1 : ℚ) < 5 := by norm_num

lemma mem_known_97 : (97 : ℤ) ∈ knownInclinations := by decide

lemma near_966 : |(96.6 : ℚ) - ((97 : ℤ) : ℚ)| ≤ 1 := by
  push_cast
  rw [abs_of_nonpos (by norm_num)]
  norm_num

lemma far_60 : ∀ k ∈ knownInclinations, (1 : ℚ) < |(60 : ℚ) - (k : ℚ)| := by
  intro k hk
  simp only [knownInclinations, List.mem_cons, List.not_mem_nil, or_false] at hk
  rcases hk with rfl | rfl | rfl | rfl
  · push_cast
    rw [abs_of_nonneg (by norm_num)]
    norm_num
  · push_cast
    rw [abs_of_nonneg (by norm_num)]
    norm_num
  · push_cast
    rw [abs_of_nonpos (by norm_num)]
    norm_num
  · push_cast
    rw [abs_of_nonpos (by norm_num)]
    norm_num

theorem round_inclination_starlink_spec_witness :
    round_inclination_starlink 96.6 1 = ((97 : ℤ) : ℚ)
    ∧ round_inclination_starlink 60 1 = pyRound1 60 :=
  ⟨((round_inclination_starlink_spec 96.6 1 one_lt_five).2 97 mem_known_97 near_966).1,
    (round_inclination_starlink_spec 60 1 one_lt_five).1 far_60⟩

lemma pydecVal_ne_zero {d : ℤ × ℤ} (h : d.1 ≠ 0) : pydecVal d ≠ 0 := by
  unfold pydecVal
  exact mul_ne_zero (Int.cast_ne_zero.mpr h) (zpow_ne_zero _ (by norm_num))

/-- C6: for every line2 whose mean-motion field parses to a nonzero
exact decimal, the derived orbital elements satisfy the spec formulas:
`orbital_period_minutes = 1440 / m`; the semi-major axis is the
nonnegative real cube root of `(T_sec^2 * MU) / (4 * pi^2)` with
`T_sec = orbital_period_minutes * 60` and the code's pi constant
`3.14159265359`, which agrees with pi to within `10^-11` (better than
11 significant digits); and `altitude = semi_major_axis - 6378.137`. -/
theorem orbital_derivation_formulas (line2 : String) (d : ℤ × ℤ)
    (hm : parsePyDec (pyStrip (pySlice line2.data 52 63)) = some d)
    (h0 : d.1 ≠ 0) :
    extract_mean_motion_from_tle line2 = some (pydecVal d)
    ∧ orbital_period_minutes (pydecVal d) = 1440 / pydecVal d
    ∧ 0 ≤ semi_major_axis (pydecVal d)
    ∧ (semi_major_axis (pydecVal d)) ^ (3 : ℕ)
      = ((orbital_period_minutes (pydecVal d) * 60 : ℚ) : ℝ) ^ (2 : ℕ) * (MU : ℝ)
        / (4 * (piCode : ℝ) ^ (2 : ℕ))
    ∧ |(piCode : ℝ) - Real.pi| < 1 / 10 ^ (11 : ℕ)
    ∧ altitude_km (pydecVal d) = semi_major_axis (pydecVal d) - 6378.137 := by
  have hmne : pydecVal d ≠ 0 := pydecVal_ne_zero h0
  have hT : (orbital_period_minutes (pydecVal d) * 60 : ℚ) ≠ 0 := by
    unfold orbital_period_minutes
    exact mul_ne_zero (div_ne_zero (by norm_num) hmne) (by norm_num)
  have hTR : ((orbital_period_minutes (pydecVal d) * 60 : ℚ) : ℝ) ≠ 0 :=
    Rat.cast_ne_zero.mpr hT
  have hMU : (0 : ℝ) < (MU : ℝ) := by
    rw [show MU = 398600.4418 from rfl]
    norm_num
  have hpic : (0 : ℝ) < (piCode : ℝ) := by
    rw [show piCode = 3.14159265359 from rfl]
    norm_num
  have hbase : (0 : ℝ) <
      ((orbital_period_minutes (pydecVal d) * 60 : ℚ) : ℝ) ^ (2 : ℕ) * (MU : ℝ)
        / (4 * (piCode : ℝ) ^ (2 : ℕ)) := by
    apply div_pos
    · exact mul_pos (pow_two_pos_of_ne_zero hTR) hMU
    · positivity
  refine ⟨?_, rfl, ?_, ?_, ?_, ?_⟩
  · unfold extract_mean_motion_from_tle parseFloatQ
    rw [hm]
    rfl
  · exact Real.rpow_nonneg (le_of_lt hbase) _
  · unfold semi_major_axis
    rw [← Real.rpow_natCast (_ ^ ((1 : ℝ) / 3)) 3, ← Real.rpow_mul (le_of_lt hbase)]
    norm_num
  · have hgt := Real.pi_gt_d20
    have hlt := Real.pi_lt_d20
    have hpc : (piCode : ℝ) = 3.14159265359 := by
      rw [show piCode = 3.14159265359 from rfl]
      norm_num
    rw [hpc, abs_lt]
    constructor <;> linarith
  · unfold altitude_km
    congr 1

theorem orbital_derivation_formulas_witness :
    parsePyDec (pyStrip (pySlice issLine2.data 52 63)) = some (1572125391, -8)
    ∧ (1572125391 : ℤ) ≠ 0
    ∧ extract_mean_motion_from_tle issLine2 = some (pydecVal (1572125391, -8))
    ∧ altitude_km (pydecVal (1572125391, -8))
      = semi_major_axis (pydecVal (1572125391, -8)) - 6378.137 :=
  ⟨by decide, by decide,
    (orbital_derivation_formulas issLine2 (1572125391, -8) (by decide) (by decide)).1,
    (orbital_derivation_formulas issLine2 (1572125391, -8) (by decide)
      (by decide)).2.2.2.2.2⟩

theorem download_tle_fallback_witness :
    fetchFailed failEnv
    ∧ download_tle failEnv = [cachedRecord]
    ∧ download_tle noCacheEnv = [] := by
  have h1 : fetchFailed failEnv := by
    show (404 : ℕ) ≠ 200
    decide
  have h2 : fetchFailed noCacheEnv := by
    show (500 : ℕ) ≠ 200
    decide
  exact ⟨h1, (download_tle_fallback failEnv h1).1 [cachedRecord] rfl rfl,
    (download_tle_fallback noCacheEnv h2).2 rfl⟩
